import Mathlib

/-!
Shallow embedding of the session/authorization subsystem of the
`idcarddetection` mobile client (AuthContext, APIContext, App routing,
MainNavigator), together with theorems about its testable properties.

The store is AsyncStorage restricted to the two fixed keys `user` and
`token`; each operation of the source is rendered as the finite trace of
store/in-memory writes it performs, interpreted over an explicit state.
-/

namespace IdCard

/-- Role of a user, per the TypeScript union type `'police' | 'admin'`
in `mobile/src/types/index.ts`. -/
inductive Role
  | police
  | admin
deriving DecidableEq

/-- User record, per the `User` interface in `mobile/src/types/index.ts`. -/
structure User where
  id : String
  email : String
  name : String
  phone : Option String
  role : Role
  is_approved : Bool
  created_at : String
deriving DecidableEq

/-- The value stored under the `user` key: a JSON string that either
parses (JSON.parse succeeds and yields a user record) or is malformed
(JSON.parse throws). -/
inductive StoredUser
  | wellFormed (u : User)
  | malformed
deriving DecidableEq

/-- The credential store: AsyncStorage restricted to the two fixed keys
`user` and `token`; a `none` component means the key is absent. -/
structure Store where
  user : Option StoredUser
  token : Option String
deriving DecidableEq

/-- Whole-app state: the durable store, the in-memory `user` React state
of `AuthProvider`, and its `loading` flag. -/
structure AppState where
  store : Store
  memUser : Option User
  loading : Bool
deriving DecidableEq

/-- Primitive state writes performed by the source operations:
`AsyncStorage.setItem`/`removeItem` on the two keys, `setUser`, and
`setLoading`. -/
inductive Event
  | setStoreUser (u : User)
  | setStoreToken (t : String)
  | removeStoreUser
  | removeStoreToken
  | setMemUser (u : Option User)
  | setLoading (b : Bool)
deriving DecidableEq

/-- Whether an event writes the credential store (as opposed to the
in-memory React state). -/
def Event.isStoreWrite : Event → Bool
  | .setStoreUser _ => true
  | .setStoreToken _ => true
  | .removeStoreUser => true
  | .removeStoreToken => true
  | .setMemUser _ => false
  | .setLoading _ => false

/-- Interpret one primitive write over the app state. -/
def applyEvent (s : AppState) : Event → AppState
  | .setStoreUser u => { s with store := { s.store with user := some (.wellFormed u) } }
  | .setStoreToken t => { s with store := { s.store with token := some t } }
  | .removeStoreUser => { s with store := { s.store with user := none } }
  | .removeStoreToken => { s with store := { s.store with token := none } }
  | .setMemUser u => { s with memUser := u }
  | .setLoading b => { s with loading := b }

/-- Interpret a trace of writes left to right. -/
def runEvents (s : AppState) (evs : List Event) : AppState :=
  evs.foldl applyEvent s

/-- Outcome of a `fetch` call: the promise rejects (network error), the
response is non-ok carrying an optional parsed `detail`, or it is ok with
a decoded payload. -/
inductive FetchResult (α : Type)
  | networkError (msg : String)
  | httpError (detail : Option String)
  | ok (payload : α)
deriving DecidableEq

/-- Session status as the spec names it, derived from `AuthProvider`'s
`loading` and `user` states the way `AppContent` reads them. -/
inductive SessionStatus
  | unknown
  | anonymous
  | authenticated
deriving DecidableEq

/-- The status of an app state: `unknown` while `loading`, else
`authenticated` iff the in-memory user is set. -/
def sessionStatus (s : AppState) : SessionStatus :=
  if s.loading then .unknown
  else
    match s.memUser with
    | none => .anonymous
    | some _ => .authenticated

/-- Trace of `loadStoredUser` (AuthContext): reads the `user` and `token`
keys; if the `user` value is present and parses, `setUser(userData)`;
otherwise (absent, malformed, or a read threw) `setUser(null)`; in every
case `setLoading(false)` runs in the `finally` block. The `token` value
is read but never used for the decision. -/
def loadStoredUser (readErr : Bool) (st : Store) : List Event :=
  if readErr then
    [.setMemUser none, .setLoading false]
  else
    match st.user with
    | some (.wellFormed u) => [.setMemUser (some u), .setLoading false]
    | some .malformed => [.setMemUser none, .setLoading false]
    | none => [.setMemUser none, .setLoading false]

/-- Run `loadStoredUser` over the app state. -/
def restore (readErr : Bool) (s : AppState) : AppState :=
  runEvents s (loadStoredUser readErr s.store)

/-- Trace of the success tail of `login`: `AsyncStorage.setItem('user', ...)`,
then `AsyncStorage.setItem('token', data.access_token)`, then
`setUser(user)`, in that source order. -/
def loginEvents (token : String) (u : User) : List Event :=
  [.setStoreUser u, .setStoreToken token, .setMemUser (some u)]

/-- `login` (AuthContext): POST `/auth/login`; on non-ok throw the parsed
`detail` (default `'Login failed'`); on ok take `access_token` and GET
`/auth/me` with a bearer header built from that token; on non-ok throw
`'Failed to get user details'`; on ok persist the pair and set the user.
A rejected fetch rethrows. The result is the thrown message or the trace
of writes performed. -/
def login (loginResp : FetchResult String) (meResp : FetchResult User) :
    Except String (List Event) :=
  match loginResp with
  | .networkError m => .error m
  | .httpError d => .error (d.getD ("Login failed"))
  | .ok token =>
    match meResp with
    | .networkError m => .error m
    | .httpError _ => .error ("Failed to get user details")
    | .ok u => .ok (loginEvents token u)

/-- Run `login` over the app state: on error the state is untouched, on
success the trace is applied. -/
def loginRun (loginResp : FetchResult String) (meResp : FetchResult User)
    (s : AppState) : Except String Unit × AppState :=
  match login loginResp meResp with
  | .error e => (.error e, s)
  | .ok evs => (.ok (), runEvents s evs)

/-- The `Authorization` header `login` sends on its `/auth/me` profile
fetch: built from `data.access_token` of the login response, not read
from the credential store. -/
def loginMeAuthHeader (accessToken : String) : Option String :=
  some ("Bearer " ++ accessToken)

/-- JSON body of the `/auth/register` request built by `register`
(AuthContext): the caller's fields plus the hard-coded `role: 'police'`. -/
structure RegisterPayload where
  email : String
  password : String
  name : String
  phone : Option String
  role : String
deriving DecidableEq

/-- The request body `register(email, password, name, phone?)` submits. -/
def registerBody (email password name : String) (phone : Option String) :
    RegisterPayload :=
  { email := email, password := password, name := name, phone := phone,
    role := "police" }

/-- `register` (AuthContext): POST `/auth/register`; on non-ok throw the
parsed `detail` (default `'Registration failed'`); on ok read the body
text and return. No store write and no `setUser` on any path. -/
def registerResult (resp : FetchResult String) : Except String (List Event) :=
  match resp with
  | .networkError m => .error m
  | .httpError d => .error (d.getD ("Registration failed"))
  | .ok _ => .ok []

/-- Run `register` over the app state. -/
def registerRun (resp : FetchResult String) (s : AppState) :
    Except String Unit × AppState :=
  match registerResult resp with
  | .error e => (.error e, s)
  | .ok evs => (.ok (), runEvents s evs)

/-- Where, if anywhere, the store-clearing part of `logout` throws. -/
inductive StoreClearError
  | noError
  | atRemoveUser
  | atRemoveToken
deriving DecidableEq

/-- Trace of `logout` (AuthContext): `removeItem('user')`,
`removeItem('token')`, then `setUser(null)`; if a removal throws, the
`catch` block still runs `setUser(null)`. -/
def logoutEvents : StoreClearError → List Event
  | .noError => [.removeStoreUser, .removeStoreToken, .setMemUser none]
  | .atRemoveUser => [.setMemUser none]
  | .atRemoveToken => [.removeStoreUser, .setMemUser none]

/-- Run `logout` over the app state. -/
def logout (e : StoreClearError) (s : AppState) : AppState :=
  runEvents s (logoutEvents e)

/-- Trace of the APIContext response interceptor's error branch: when
`error.response?.status === 401` it removes the `user` and `token` keys
from AsyncStorage and nothing else (in particular it performs no
`setUser`); on any other status (or a response-less error) it performs no
write. The error is then re-rejected to the caller either way. -/
def responseErrorEvents (status : Option Nat) : List Event :=
  if status = some 401 then [.removeStoreUser, .removeStoreToken] else []

/-- Run the response interceptor's error branch over the app state. -/
def onResponseError (status : Option Nat) (s : AppState) : AppState :=
  runEvents s (responseErrorEvents status)

/-- Request configuration as the APIContext request interceptor sees it. -/
structure RequestConfig where
  url : String
  authorization : Option String
deriving DecidableEq

/-- The APIContext request interceptor: read the `token` key from
AsyncStorage; if present set `config.headers.Authorization` to
`Bearer <token>`; if absent leave the config untouched. -/
def requestInterceptor (st : Store) (cfg : RequestConfig) : RequestConfig :=
  match st.token with
  | some t => { cfg with authorization := some ("Bearer " ++ t) }
  | none => cfg

/-- An outbound backend call site of the client, with whether it is
issued through the shared axios `api` instance (and hence through the
interceptors) or through a direct `fetch`. -/
structure CallSite where
  component : String
  endpoint : String
  viaApiInstance : Bool
deriving DecidableEq

/-- Every outbound backend call site in the source. The three auth calls
in AuthContext use direct `fetch`; all screen data calls go through the
`api` instance obtained from `useAPI()`. -/
def outboundCallSites : List CallSite :=
  [ ⟨"AuthContext.login token exchange", "/auth/login", false⟩,
    ⟨"AuthContext.login profile fetch", "/auth/me", false⟩,
    ⟨"AuthContext.register", "/auth/register", false⟩,
    ⟨"police LogsScreen", "/logs/", true⟩,
    ⟨"admin LogsScreen", "/admin/logs", true⟩,
    ⟨"admin DashboardScreen approvals", "/admin/police-unapproved", true⟩,
    ⟨"admin DashboardScreen recent logs", "/admin/logs", true⟩,
    ⟨"admin DashboardScreen total logs", "/admin/logs", true⟩,
    ⟨"police UploadScreen", "/verify/", true⟩,
    ⟨"PendingApprovalsScreen list", "/admin/police-unapproved", true⟩,
    ⟨"PendingApprovalsScreen approve", "/admin/approve-police/:id", true⟩,
    ⟨"PendingApprovalsScreen reject", "/admin/reject-police/:id", true⟩ ]

/-- The four screen graphs the app can render. -/
inductive ScreenGraph
  | loadingScreen
  | authGraph
  | policeGraph
  | adminGraph
deriving DecidableEq

/-- `MainTabs` (MainNavigator): renders the admin tab navigator when
`user?.role === 'admin'`, otherwise the police tab navigator. -/
def mainTabs (user : Option User) : ScreenGraph :=
  if user.map User.role = some Role.admin then .adminGraph else .policeGraph

/-- `AppContent` (App.tsx): `LoadingScreen` while `loading`; otherwise
`MainNavigator` (whose tabs are `MainTabs`) when `user` is set, else
`AuthNavigator`. -/
def appContent (loading : Bool) (user : Option User) : ScreenGraph :=
  if loading then .loadingScreen
  else
    match user with
    | none => .authGraph
    | some u => mainTabs (some u)

/-- Modelled from the spec (section 4.4 Role Router), for comparison with
`appContent`: `Unknown` maps to the loading representation, `Anonymous`
to the unauthenticated graph, `Authenticated` to the graph of the role. -/
def roleRouterSpec : SessionStatus → Role → ScreenGraph
  | .unknown, _ => .loadingScreen
  | .anonymous, _ => .authGraph
  | .authenticated, .police => .policeGraph
  | .authenticated, .admin => .adminGraph

/-- One user-or-pipeline-initiated operation, with the environment
outcomes (network responses, store errors) it runs under. -/
inductive Step
  | restoreStep (readErr : Bool)
  | loginStep (loginResp : FetchResult String) (meResp : FetchResult User)
  | registerStep (resp : FetchResult String)
  | logoutStep (e : StoreClearError)
  | apiErrorStep (status : Option Nat)

/-- Apply one operation to the app state. -/
def applyStep (s : AppState) : Step → AppState
  | .restoreStep readErr => restore readErr s
  | .loginStep lr mr => (loginRun lr mr s).2
  | .registerStep r => (registerRun r s).2
  | .logoutStep e => logout e s
  | .apiErrorStep st => onResponseError st s

/-- Initial app state: empty store, no in-memory user, `loading` true. -/
def initState : AppState := ⟨⟨none, none⟩, none, true⟩

/-- States reachable from the initial state by any sequence of
operations. -/
inductive Reachable : AppState → Prop
  | init : Reachable initState
  | step (s : AppState) (op : Step) : Reachable s → Reachable (applyStep s op)

/-- Apply a sequence of operations. -/
def runSteps (s : AppState) (steps : List Step) : AppState :=
  steps.foldl applyStep s

/-- A concrete user for evaluating the operations. -/
def sampleUser : User :=
  ⟨"1", "a@x.com", "A", none, .police, true, "2024-01-01"⟩

/-- A concrete authenticated state: store holds the pair, in-memory user
set, loading finished. -/
def authedState : AppState :=
  ⟨⟨some (.wellFormed sampleUser), some ("T")⟩, some sampleUser, false⟩

/-- Claim C1, evaluated at the failing input: a 401 received in the
authenticated state empties the credential store, but the in-memory
session is still authenticated when the rejection is propagated — the
response interceptor never signals the session controller to
invalidate. -/
theorem c1_401_clears_store_but_session_stays_authenticated :
    onResponseError (some 401) authedState
      = ⟨⟨none, none⟩, some sampleUser, false⟩
    ∧ sessionStatus (onResponseError (some 401) authedState)
      = .authenticated :=
  ⟨rfl, rfl⟩

/-- Claim C2 counterexample: a store holding exactly one of the two keys
(the user key present, the token key absent) makes restore yield an
authenticated session, not Anonymous. -/
theorem c2_counterexample_user_key_without_token :
    sessionStatus
      (restore false ⟨⟨some (.wellFormed sampleUser), none⟩, none, true⟩)
      = .authenticated
    ∧ (restore false
        ⟨⟨some (.wellFormed sampleUser), none⟩, none, true⟩).memUser
      = some sampleUser :=
  ⟨rfl, rfl⟩

/-- Claim C2 as amended: restore yields Anonymous whenever the user key
is absent or malformed or the store read errors, regardless of the token
key; when the user key holds a well-formed record, restore sets that
user even if the token key is absent — the token key is never
consulted. -/
theorem c2_restore_fallback (readErr : Bool) (tok : Option String)
    (m : Option User) (l : Bool) (u : User) :
    sessionStatus (restore readErr ⟨⟨none, tok⟩, m, l⟩) = .anonymous
    ∧ sessionStatus (restore readErr ⟨⟨some .malformed, tok⟩, m, l⟩)
      = .anonymous
    ∧ sessionStatus (restore true ⟨⟨some (.wellFormed u), tok⟩, m, l⟩)
      = .anonymous
    ∧ (restore false ⟨⟨some (.wellFormed u), tok⟩, m, l⟩).memUser = some u := by
  cases readErr <;> exact ⟨rfl, rfl, rfl, rfl⟩

/-- Claim C3, evaluated at the failing sequence: a successful login
followed by a call that receives a 401 reaches a state whose in-memory
user is present while the stored token is absent — the pairing invariant
fails on a reachable state. -/
theorem c3_pairing_violated_after_401 :
    Reachable (runSteps initState
      [.loginStep (.ok ("T")) (.ok sampleUser), .apiErrorStep (some 401)])
    ∧ (runSteps initState
        [.loginStep (.ok ("T")) (.ok sampleUser),
         .apiErrorStep (some 401)]).memUser = some sampleUser
    ∧ (runSteps initState
        [.loginStep (.ok ("T")) (.ok sampleUser),
         .apiErrorStep (some 401)]).store.token = none := by
  refine ⟨?_, rfl, rfl⟩
  show Reachable (applyStep
    (applyStep initState (.loginStep (.ok ("T")) (.ok sampleUser)))
    (.apiErrorStep (some 401)))
  exact Reachable.step _ _ (Reachable.step _ _ Reachable.init)

/-- Claim C4: when the token exchange succeeds but the profile fetch
fails (transport error or non-ok response), login rejects and the app
state is exactly the state before the call: no transition, no store
write, the obtained token nowhere retained. -/
theorem c4_profile_fetch_failure_aborts_login (tok m : String)
    (d : Option String) (s : AppState) :
    loginRun (.ok tok) (.networkError m) s = (.error m, s)
    ∧ loginRun (.ok tok) (.httpError d) s
      = (.error ("Failed to get user details"), s) :=
  ⟨rfl, rfl⟩

/-- Claim C5: a fully successful login applies exactly the trace that
writes the user key, then the token key, then the in-memory user; after
the first two events the store already holds the full pair and only then
comes the in-memory announcement, and the final store and in-memory
session agree on the same user and token. -/
theorem c5_login_persists_pair_before_announce (tok : String) (u : User)
    (s : AppState) :
    loginRun (.ok tok) (.ok u) s = (.ok (), runEvents s (loginEvents tok u))
    ∧ (runEvents s (loginEvents tok u)).store
      = ⟨some (.wellFormed u), some tok⟩
    ∧ (runEvents s (loginEvents tok u)).memUser = some u
    ∧ (runEvents s ((loginEvents tok u).take 2)).store
      = ⟨some (.wellFormed u), some tok⟩
    ∧ (loginEvents tok u).get? 2 = some (.setMemUser (some u))
    ∧ ((loginEvents tok u).take 2).all Event.isStoreWrite = true :=
  ⟨rfl, rfl, rfl, rfl, rfl, rfl⟩

/-- Claim C6: logout removes both store keys and only then sets the
in-memory user to none (clear-before-anonymous order on the error-free
path), and on every path — including a store-clearing error — the
in-memory user ends up none, never left authenticated. -/
theorem c6_logout_clears_store_then_anonymous (e : StoreClearError)
    (s : AppState) :
    (logout e s).memUser = none
    ∧ (logout .noError s).store = ⟨none, none⟩
    ∧ (runEvents s ((logoutEvents .noError).take 2)).store = ⟨none, none⟩
    ∧ (logoutEvents .noError).get? 2 = some (.setMemUser none)
    ∧ ((logoutEvents .noError).take 2).all Event.isStoreWrite = true := by
  cases e <;> exact ⟨rfl, rfl, rfl, rfl, rfl⟩

/-- Claim C7: the register request body always carries the fixed role
string police, and register leaves the app state (store and in-memory
session) unchanged whether the request succeeds or fails. -/
theorem c7_register_fixed_role_and_no_session_change
    (email password nm : String) (phone : Option String)
    (resp : FetchResult String) (s : AppState) :
    (registerBody email password nm phone).role = "police"
    ∧ (registerRun resp s).2 = s := by
  refine ⟨rfl, ?_⟩
  cases resp <;> rfl

/-- Claim C8: the router is total on (status, role): while loading it
always yields the loading representation; once loaded it yields the
unauthenticated graph for no user and, for an authenticated user,
exactly the graph the spec assigns to the user's role; and changing only
is_approved never changes the routing outcome. -/
theorem c8_router_total_and_ignores_approval (loading : Bool) (u : User)
    (b : Bool) :
    appContent loading none = (if loading then .loadingScreen else .authGraph)
    ∧ appContent loading (some u)
      = (if loading then .loadingScreen
         else roleRouterSpec .authenticated u.role)
    ∧ appContent loading (some { u with is_approved := b })
      = appContent loading (some u) := by
  cases u with
  | mk i em nm ph r ap cr => cases loading <;> cases r <;> exact ⟨rfl, rfl, rfl⟩

/-- Claim C9 counterexample: the login token-exchange call is an
outbound backend call issued through direct fetch, so it does not pass
through the api instance and hence never reaches the pipeline's attach
stage. -/
theorem c9_counterexample_login_call_bypasses_pipeline :
    (⟨"AuthContext.login token exchange", "/auth/login", false⟩ : CallSite)
      ∈ outboundCallSites
    ∧ (⟨"AuthContext.login token exchange", "/auth/login", false⟩
        : CallSite).viaApiInstance = false :=
  ⟨List.mem_cons_self _ _, rfl⟩

/-- Claim C9 as amended: every call issued through the shared api
instance passes the attach stage, which reads the token from the
credential store and attaches a Bearer header exactly when it is
present; the only backend calls outside the pipeline are the three auth
endpoints dispatched by direct fetch, and the profile fetch builds its
bearer header from the freshly received access token, not from the
store. -/
theorem c9_api_instance_attach_stage (t : String) (m : Option StoredUser)
    (cfg : RequestConfig) :
    requestInterceptor ⟨m, some t⟩ cfg
      = { cfg with authorization := some ("Bearer " ++ t) }
    ∧ requestInterceptor ⟨m, none⟩ cfg = cfg
    ∧ (outboundCallSites.all fun c =>
        c.viaApiInstance
          || (["/auth/login", "/auth/me", "/auth/register"].contains
                c.endpoint)) = true
    ∧ loginMeAuthHeader t = some ("Bearer " ++ t) := by
  refine ⟨rfl, rfl, ?_, rfl⟩
  decide

/-- Claim C10: restore never writes the credential store: for every
store content (absent, partial, or malformed record) and also when the
read errors, the store after restore equals the store before, and the
trace of restore contains no store-writing event at all. -/
theorem c10_restore_never_writes_store (readErr : Bool) (s : AppState) :
    (restore readErr s).store = s.store
    ∧ (loadStoredUser readErr s.store).filter Event.isStoreWrite = [] := by
  obtain ⟨⟨su, st⟩, m, l⟩ := s
  cases readErr with
  | true => exact ⟨rfl, rfl⟩
  | false =>
    match su with
    | none => exact ⟨rfl, rfl⟩
    | some .malformed => exact ⟨rfl, rfl⟩
    | some (.wellFormed u) => exact ⟨rfl, rfl⟩

end IdCard
